import Mathlib

/-! Verification of the Chrome network interception layer of the spider
    crawler (spider_chrome/src/handler/network.rs) and of the selector
    builder (spider_utils/src/lib.rs), as a shallow embedding in Lean.
    Strings model Rust strings; HashMap fields are modelled as total
    functions into Option and HashSet fields as Boolean characteristic
    functions. -/

namespace Spider

/-- A node of the ignore trie (network.rs, TrieNode): children keyed by
    character, plus an end-of-word flag.  The Rust HashMap of children is
    modelled as a total function into Option. -/
inductive TrieNode where
  | mk (children : Char → Option TrieNode) (is_end_of_word : Bool)

def TrieNode.children : TrieNode → Char → Option TrieNode
  | .mk c _ => c

def TrieNode.is_end_of_word : TrieNode → Bool
  | .mk _ e => e

def TrieNode.empty : TrieNode := .mk (fun _ => none) false

/-- Trie::insert: walk the characters of the word, creating children on
    demand, and mark the final node as end of word. -/
def trieInsert : TrieNode → List Char → TrieNode
  | node, [] => .mk (TrieNode.children node) true
  | node, c :: cs =>
    let child := match TrieNode.children node c with
      | some t => t
      | none => TrieNode.empty
    .mk (fun c' => if c' = c then some (trieInsert child cs) else TrieNode.children node c')
        (TrieNode.is_end_of_word node)

/-- Trie::contains_prefix: descend along the text, returning true as soon as
    a node with the end-of-word flag is reached; break on a missing child;
    false when the text is exhausted. -/
def trieContainsPref : TrieNode → List Char → Bool
  | _, [] => false
  | node, c :: cs =>
    match TrieNode.children node c with
    | some next => TrieNode.is_end_of_word next || trieContainsPref next cs
    | none => false

/-- Build a trie by inserting every pattern of the list, as the
    lazy_static initializers in network.rs do. -/
def buildTrie (patterns : List String) : TrieNode :=
  (patterns.map String.data).foldl trieInsert TrieNode.empty

/-- The patterns inserted into URL_IGNORE_TRIE (network.rs). -/
def urlIgnorePatterns : List String :=
  [ "https://www.googletagservices.com/tag/",
    "https://js.hs-analytics.net/analytics/",
    "https://js.hsadspixel.net",
    "https://www.google.com/adsense/",
    "https://www.googleadservices.com",
    "https://adservice.google.com",
    "https://www.gstatic.com/cv/js/sender/",
    "https://googleads.g.doubleclick.net",
    "https://www.google-analytics.com",
    "https://www.googletagmanager.com",
    "https://iabusprivacy.pmc.com/geo-info.js",
    "https://cdn.onesignal.com",
    "https://cdn.cookielaw.org/",
    "https://static.doubleclick.net",
    "https://cdn.piano.io",
    "https://px.ads.linkedin.com",
    "https://connect.facebook.net",
    "https://tags.tiqcdn.com",
    "https://tr.snapchat.com",
    "https://ads.twitter.com",
    "https://cdn.segment.com",
    "https://stats.wp.com",
    "https://analytics.",
    "http://analytics.",
    "https://cdn.cxense.com",
    "https://cdn.tinypass.com",
    "https://cd.connatix.com",
    ".newrelic.com",
    ".googlesyndication.com",
    ".amazon-adsystem.com",
    ".onetrust.com",
    "sc.omtrdc.net",
    "doubleclick.net",
    "hotjar.com",
    "datadome.com",
    "datadog-logs-us.js",
    "tinypass.min.js",
    ".airship.com",
    ".adlightning.com",
    "privacy-notice.js",
    "tracking.js",
    "ads.js",
    "https://ads.",
    "http://ads.",
    "https://tracking.",
    "http://tracking.",
    "https://geo.privacymanager.io/" ]

/-- The patterns inserted into URL_IGNORE_XHR_TRIE (network.rs). -/
def urlIgnoreXhrPatterns : List String :=
  [ "https://play.google.com/log?",
    "https://googleads.g.doubleclick.net/pagead/id",
    "https://js.monitor.azure.com/scripts",
    "https://securepubads.g.doubleclick.net",
    "https://pixel-config.reddit.com/pixels",
    "https://www.amazon.com/af/feedback-link?",
    "https://tr.snapchat.com/config/",
    "https://collect.tealiumiq.com/",
    "https://s.yimg.com/wi",
    "https://disney.my.sentry.io/api/",
    "https://www.redditstatic.com/ads",
    "https://buy.tinypass.com/",
    "https://idx.liadm.com",
    "https://geo.privacymanager.io/",
    "https://nimbleplot.com",
    "googlesyndication.com",
    ".piano.io/",
    ".browsiprod.com",
    ".onetrust.com/consent/",
    "https://logs.",
    "/track.php" ]

/-- The patterns inserted into URL_IGNORE_EMBEDED_TRIE (network.rs). -/
def urlIgnoreEmbeddedPatterns : List String :=
  [ "https://www.youtube.com/embed/",
    "https://www.google.com/maps/embed?",
    "https://player.vimeo.com/video/",
    "https://open.spotify.com/embed/",
    "https://w.soundcloud.com/player/",
    "https://platform.twitter.com/embed/",
    "https://www.instagram.com/embed.js",
    "https://www.facebook.com/plugins/",
    "https://cdn.embedly.com/widgets/",
    "https://player.twitch.tv/",
    "https://insight.adsrvr.org/track/",
    "cxense.com/",
    "https://tr.snapchat.com/",
    "https://buy.tinypass.com",
    "https://nimbleplot.com/",
    "https://kit.fontawesome.com/",
    "https://use.typekit.net",
    "https://cdn.tailwindcss.com",
    "https://googleads.g.doubleclick.net",
    "amazon-adsystem.com",
    "g.doubleclick.net",
    "googlesyndication.com",
    "adsafeprotected.com",
    ".googlesyndication.com/safeframe/",
    "/ccpa/user-consent.min.js",
    "privacy-notice.js" ]

/-- The patterns inserted into URL_IGNORE_XHR_MEDIA_TRIE (network.rs). -/
def urlIgnoreXhrMediaPatterns : List String :=
  [ "https://www.youtube.com/s/player/",
    "https://www.vimeo.com/player/",
    "https://soundcloud.com/player/",
    "https://open.spotify.com/",
    "https://api.spotify.com/v1/",
    "https://music.apple.com/" ]

def URL_IGNORE_TRIE : TrieNode := buildTrie urlIgnorePatterns

def URL_IGNORE_XHR_TRIE : TrieNode := buildTrie urlIgnoreXhrPatterns

def URL_IGNORE_EMBEDED_TRIE : TrieNode := buildTrie urlIgnoreEmbeddedPatterns

def URL_IGNORE_XHR_MEDIA_TRIE : TrieNode := buildTrie urlIgnoreXhrMediaPatterns

/-- The JS_FRAMEWORK_ALLOW phf set of network.rs; membership is exact
    string equality on the full URL. -/
def JS_FRAMEWORK_ALLOW : List String :=
  [ "jquery.min.js", "jquery.qtip.min.js", "jquery.js", "angular.js", "jquery.slim.js",
    "react.development.js", "react-dom.development.js", "react.production.min.js",
    "react-dom.production.min.js", "vue.global.js", "vue.esm-browser.js", "vue.js",
    "bootstrap.min.js", "bootstrap.bundle.min.js", "bootstrap.esm.min.js", "d3.min.js",
    "d3.js",
    "app.js",
    "main.js",
    "index.js",
    "https://m.stripe.network/inner.html",
    "https://m.stripe.network/out-4.5.43.js",
    "https://challenges.cloudflare.com/turnstile",
    "https://js.stripe.com/v3/" ]

/-- IGNORE_VISUAL_RESOURCE_MAP of network.rs (resource-type names). -/
def IGNORE_VISUAL_RESOURCE_MAP : List String := ["Image", "Media", "Font", "Other"]

/-- IGNORE_NETWORKING_RESOURCE_MAP of network.rs (resource-type names). -/
def IGNORE_NETWORKING_RESOURCE_MAP : List String := ["Prefetch", "Ping"]

/-- IGNORE_XHR_ASSETS of network.rs: visual asset extensions, stored as
    case-insensitive strings (dotted duplicates included as in the source). -/
def IGNORE_XHR_ASSETS : List String :=
  [ "jpg", "jpeg", "png", "gif", "svg", "webp",
    "mp4", "avi", "mov", "wmv", "flv",
    "mp3", "wav", "ogg",
    "woff", "woff2", "ttf", "otf",
    "swf", "xap",
    "ico", "eot",
    ".jpg", ".jpeg", ".png", ".gif", ".svg", ".webp",
    ".mp4", ".avi", ".mov", ".wmv", ".flv",
    ".mp3", ".wav", ".ogg",
    ".woff", ".woff2", ".ttf", ".otf",
    ".swf", ".xap",
    ".ico", ".eot" ]

/-- Case-insensitive equality of the case_insensitive_string crate, modelled
    as equality after ASCII lowercasing. -/
def ciEq (a b : List Char) : Bool := a.map Char.toLower == b.map Char.toLower

/-- Membership of an extension in the IGNORE_XHR_ASSETS HashSet of
    CaseInsensitiveString entries. -/
def xhrAssetMember (ext : List Char) : Bool :=
  IGNORE_XHR_ASSETS.any (fun a => ciEq a.data ext)

/-- Contiguous substring containment on character lists. -/
def listContainsSub (needle : List Char) : List Char → Bool
  | [] => needle.isEmpty
  | c :: t => List.isPrefixOf needle (c :: t) || listContainsSub needle t

/-- CaseInsensitiveString::contains of the CSS_EXTENSION "css", modelled as
    case-insensitive substring containment. -/
def extContainsCss (ext : List Char) : Bool :=
  listContainsSub "css".data (ext.map Char.toLower)

/-- ignore_script (network.rs): URL_IGNORE_TRIE prefix match, else the four
    explicit suffix checks. -/
def ignore_script (url : String) : Bool :=
  let ig := trieContainsPref URL_IGNORE_TRIE url.data
  if !ig then
    List.isSuffixOf "analytics.js".data url.data
      || List.isSuffixOf "ads.js".data url.data
      || List.isSuffixOf "tracking.js".data url.data
      || List.isSuffixOf "track.js".data url.data
  else
    ig

/-- ignore_script_embedded (network.rs). -/
def ignore_script_embedded (url : String) : Bool :=
  trieContainsPref URL_IGNORE_EMBEDED_TRIE url.data

/-- ignore_script_xhr (network.rs). -/
def ignore_script_xhr (url : String) : Bool :=
  trieContainsPref URL_IGNORE_XHR_TRIE url.data

/-- ignore_script_xhr_media (network.rs). -/
def ignore_script_xhr_media (url : String) : Bool :=
  trieContainsPref URL_IGNORE_XHR_MEDIA_TRIE url.data

/-- str::starts_with, modelled character-wise. -/
def strStartsWith (s pre : String) : Bool := List.isPrefixOf pre.data s.data

/-- str::rfind of the dot character, as a character index. -/
def rfindDotIdx (u : List Char) : Option Nat :=
  match (u.reverse).findIdx? (fun c => c == '.') with
  | some i => some (u.length - 1 - i)
  | none => none

/-- CDP resource types (chromiumoxide_cdp network::ResourceType). -/
inductive ResourceType where
  | document | stylesheet | image | media | font | script | textTrack
  | xhr | fetch | prefetch | eventSource | webSocket | manifest
  | signedExchange | ping | cspViolationReport | preflight | other
deriving DecidableEq

/-- ResourceType::as_ref, the string names used for the phf set lookups. -/
def ResourceType.asRef : ResourceType → String
  | .document => "Document"
  | .stylesheet => "Stylesheet"
  | .image => "Image"
  | .media => "Media"
  | .font => "Font"
  | .script => "Script"
  | .textTrack => "TextTrack"
  | .xhr => "XHR"
  | .fetch => "Fetch"
  | .prefetch => "Prefetch"
  | .eventSource => "EventSource"
  | .webSocket => "WebSocket"
  | .manifest => "Manifest"
  | .signedExchange => "SignedExchange"
  | .ping => "Ping"
  | .cspViolationReport => "CSPViolationReport"
  | .preflight => "Preflight"
  | .other => "Other"

/-- A CDP response payload, kept to the fields the manager reads.
    Modelled from the spec: the final response attached to a request
    record (spec section 3, HTTP request record). -/
structure Response where
  status : Int
  url : String
deriving DecidableEq

/-- Credentials used for Fetch authentication (crate::auth::Credentials).
    Modelled from the spec: username and password provided on authRequired. -/
structure Credentials where
  username : String
  password : String
deriving DecidableEq

/-- The per-request record kept in the requests map.  Modelled from the
    spec: handler/http.rs (HttpRequest) is not part of the source excerpt;
    fields follow spec section 3 (interception id, redirect chain,
    from-memory-cache flag, failure text, final response) plus the
    constructor arguments visible at the call sites in network.rs. -/
inductive HttpRequest where
  | mk (request_id : String) (frame_id : Option String)
       (interception_id : Option String) (allow_interception : Bool)
       (redirect_chain : List HttpRequest) (from_memory_cache : Bool)
       (failure_text : Option String) (response : Option Response)

def HttpRequest.request_id : HttpRequest → String
  | .mk r _ _ _ _ _ _ _ => r

def HttpRequest.frame_id : HttpRequest → Option String
  | .mk _ f _ _ _ _ _ _ => f

def HttpRequest.interception_id : HttpRequest → Option String
  | .mk _ _ i _ _ _ _ _ => i

def HttpRequest.allow_interception : HttpRequest → Bool
  | .mk _ _ _ a _ _ _ _ => a

def HttpRequest.redirect_chain : HttpRequest → List HttpRequest
  | .mk _ _ _ _ c _ _ _ => c

def HttpRequest.from_memory_cache : HttpRequest → Bool
  | .mk _ _ _ _ _ m _ _ => m

def HttpRequest.failure_text : HttpRequest → Option String
  | .mk _ _ _ _ _ _ t _ => t

def HttpRequest.response : HttpRequest → Option Response
  | .mk _ _ _ _ _ _ _ r => r

/-- HttpRequest::new.  Modelled from the spec: a fresh record has no
    response, no failure text and is not from the memory cache. -/
def HttpRequest.new (request_id : String) (frame_id : Option String)
    (interception_id : Option String) (allow_interception : Bool)
    (redirect_chain : List HttpRequest) : HttpRequest :=
  .mk request_id frame_id interception_id allow_interception redirect_chain
      false none none

/-- HttpRequest::set_response.  Modelled from the spec: attaches the
    response to the record. -/
def HttpRequest.set_response : HttpRequest → Response → HttpRequest
  | .mk a b c d e f g _, resp => .mk a b c d e f g (some resp)

/-- Replace the redirect chain of a record (std::mem::take leaves an empty
    chain behind). -/
def HttpRequest.withChain : HttpRequest → List HttpRequest → HttpRequest
  | .mk a b c d _ f g h, ch => .mk a b c d ch f g h

/-- AuthChallengeResponseResponse of the fetch domain. -/
inductive AuthChallengeResponseResponse where
  | default | cancelAuth | provideCredentials
deriving DecidableEq

/-- The CDP commands network.rs serializes and enqueues via
    push_cdp_request, reduced to their parameters. -/
inductive CdpCommand where
  | continueRequest (request_id : String)
  | fulfillRequest (request_id : String) (response_code : Nat)
  | continueWithAuth (request_id : String)
      (response : AuthChallengeResponseResponse)
      (username password : Option String)
  | emulateNetworkConditions (offline : Bool) (latency : Int)
      (download_throughput upload_throughput : Int)
  | setCacheDisabled (cache_disabled : Bool)
  | setExtraHTTPHeaders (headers : List (String × String))
  | fetchEnable
  | fetchDisable
deriving DecidableEq

/-- NetworkEvent of network.rs. -/
inductive NetworkEvent where
  | sendCdpRequest (cmd : CdpCommand)
  | request (request_id : String)
  | response (request_id : String)
  | requestFailed (req : HttpRequest)
  | requestFinished (req : HttpRequest)

/-- The request carried by a CDP event (only the URL is read). -/
structure CdpRequest where
  url : String
deriving DecidableEq

/-- EventRequestWillBeSent, reduced to the fields network.rs reads. -/
structure EventRequestWillBeSent where
  request_id : String
  frame_id : Option String
  request : CdpRequest
  redirect_response : Option Response
deriving DecidableEq

/-- EventRequestPaused, reduced to the fields network.rs reads. -/
structure EventRequestPaused where
  request_id : String
  network_id : Option String
  resource_type : ResourceType
  request : CdpRequest
deriving DecidableEq

/-- EventAuthRequired, reduced to the fields network.rs reads. -/
structure EventAuthRequired where
  request_id : String
deriving DecidableEq

/-- EventResponseReceived, reduced to the fields network.rs reads. -/
structure EventResponseReceived where
  request_id : String
  response : Response
deriving DecidableEq

/-- EventLoadingFinished, reduced to the fields network.rs reads. -/
structure EventLoadingFinished where
  request_id : String
deriving DecidableEq

/-- EventLoadingFailed, reduced to the fields network.rs reads. -/
structure EventLoadingFailed where
  request_id : String
  error_text : String
deriving DecidableEq

/-- EventRequestServedFromCache, reduced to the fields network.rs reads. -/
structure EventRequestServedFromCache where
  request_id : String
deriving DecidableEq

/-- The NetworkManager state (network.rs).  HashMaps become functions into
    Option, the HashSet becomes a characteristic function, the VecDeque of
    queued events becomes a list (push_back appends at the right). -/
structure NetworkManager where
  queued_events : List NetworkEvent
  ignore_httpserrors : Bool
  requests : String → Option HttpRequest
  requests_will_be_sent : String → Option EventRequestWillBeSent
  extra_headers : List (String × String)
  request_id_to_interception_id : String → Option String
  user_cache_disabled : Bool
  attempted_authentications : String → Bool
  credentials : Option Credentials
  user_request_interception_enabled : Bool
  protocol_request_interception_enabled : Bool
  offline : Bool
  request_timeout : Nat
  ignore_visuals : Bool
  block_stylesheets : Bool
  block_javascript : Bool
  block_analytics : Bool
  only_html : Bool

/-- NetworkManager::new (the Duration is modelled in milliseconds). -/
def NetworkManager.new (ignore_httpserrors : Bool) (request_timeout : Nat) :
    NetworkManager where
  queued_events := []
  ignore_httpserrors := ignore_httpserrors
  requests := fun _ => none
  requests_will_be_sent := fun _ => none
  extra_headers := []
  request_id_to_interception_id := fun _ => none
  user_cache_disabled := false
  attempted_authentications := fun _ => false
  credentials := none
  user_request_interception_enabled := false
  protocol_request_interception_enabled := false
  offline := false
  request_timeout := request_timeout
  ignore_visuals := false
  block_javascript := false
  block_stylesheets := false
  block_analytics := true
  only_html := false

/-- push_cdp_request: serialization always succeeds in the model, so the
    command is appended to the queued events. -/
def NetworkManager.push_cdp_request (s : NetworkManager) (cmd : CdpCommand) :
    NetworkManager :=
  { s with queued_events := s.queued_events ++ [.sendCdpRequest cmd] }

/-- poll: pop the front of the queued events (state component). -/
def NetworkManager.pollState (s : NetworkManager) : NetworkManager :=
  { s with queued_events := s.queued_events.drop 1 }

/-- set_extra_headers: store the headers minus proxy-authorization and emit
    setExtraHTTPHeaders. -/
def NetworkManager.set_extra_headers (s : NetworkManager)
    (headers : List (String × String)) : NetworkManager :=
  let kept := headers.filter (fun kv => !(kv.1 == "proxy-authorization"))
  let s := { s with extra_headers := kept }
  s.push_cdp_request (.setExtraHTTPHeaders kept)

/-- update_protocol_cache_disabled. -/
def NetworkManager.update_protocol_cache_disabled (s : NetworkManager) :
    NetworkManager :=
  s.push_cdp_request
    (.setCacheDisabled (s.user_cache_disabled || s.protocol_request_interception_enabled))

/-- update_protocol_request_interception: note the source never writes the
    protocol_request_interception_enabled field back. -/
def NetworkManager.update_protocol_request_interception (s : NetworkManager) :
    NetworkManager :=
  let enabled := s.user_request_interception_enabled || s.credentials.isSome
  if enabled == s.protocol_request_interception_enabled then
    s
  else
    let s := s.update_protocol_cache_disabled
    if enabled then s.push_cdp_request .fetchEnable
    else s.push_cdp_request .fetchDisable

/-- set_request_interception. -/
def NetworkManager.set_request_interception (s : NetworkManager) (enabled : Bool) :
    NetworkManager :=
  ({ s with user_request_interception_enabled := enabled
   } : NetworkManager).update_protocol_request_interception

/-- set_cache_enabled. -/
def NetworkManager.set_cache_enabled (s : NetworkManager) (enabled : Bool) :
    NetworkManager :=
  ({ s with user_cache_disabled := !enabled } : NetworkManager).update_protocol_cache_disabled

/-- authenticate. -/
def NetworkManager.authenticate (s : NetworkManager) (credentials : Credentials) :
    NetworkManager :=
  ({ s with credentials := some credentials } : NetworkManager).update_protocol_request_interception

/-- handle_request_redirect: attach the redirect response and drop the
    interception id from attempted_authentications. -/
def NetworkManager.handle_request_redirect (s : NetworkManager)
    (request : HttpRequest) (response : Response) :
    NetworkManager × HttpRequest :=
  let request := request.set_response response
  match request.interception_id with
  | some iid =>
    ({ s with attempted_authentications :=
        fun x => if x = iid then false else s.attempted_authentications x },
     request)
  | none => (s, request)

/-- The tail of on_request: insert the fresh record built from the event and
    the computed redirect chain, and emit a Request event. -/
def NetworkManager.on_request_finish (s : NetworkManager)
    (event : EventRequestWillBeSent) (interception_id : Option String)
    (redirect_chain : List HttpRequest) : NetworkManager :=
  let request := HttpRequest.new event.request_id event.frame_id interception_id
    s.user_request_interception_enabled redirect_chain
  { s with
    requests := fun k => if k = event.request_id then some request else s.requests k,
    queued_events := s.queued_events ++ [.request event.request_id] }

/-- on_request: when the event carries a redirect response and a record is
    pending, pop it, attach the redirect response (dropping its interception
    id from attempted_authentications) and move it into the redirect chain of
    the fresh record; then insert the fresh record and emit a Request event. -/
def NetworkManager.on_request (s : NetworkManager)
    (event : EventRequestWillBeSent) (interception_id : Option String) :
    NetworkManager :=
  match event.redirect_response with
  | some redirect_resp =>
    match s.requests event.request_id with
    | some request =>
      let s := { s with requests :=
        fun k => if k = event.request_id then none else s.requests k }
      let pr := s.handle_request_redirect request redirect_resp
      pr.1.on_request_finish event interception_id
        (pr.2.redirect_chain ++ [pr.2.withChain []])
    | none => s.on_request_finish event interception_id []
  | none => s.on_request_finish event interception_id []

/-- on_request_will_be_sent: pair with a pre-assigned interception id, or
    buffer, or (for data: URLs or disabled protocol interception) transition
    immediately. -/
def NetworkManager.on_request_will_be_sent (s : NetworkManager)
    (event : EventRequestWillBeSent) : NetworkManager :=
  if s.protocol_request_interception_enabled
      && !(strStartsWith event.request.url "data:") then
    match s.request_id_to_interception_id event.request_id with
    | some interception_id =>
      ({ s with request_id_to_interception_id :=
          fun k => if k = event.request_id then none
                   else s.request_id_to_interception_id k
       } : NetworkManager).on_request event (some interception_id)
    | none =>
      { s with requests_will_be_sent :=
          fun k => if k = event.request_id then some event
                   else s.requests_will_be_sent k }
  else
    s.on_request event none

/-- Set the from_memory_cache flag of a record. -/
def HttpRequest.withFromMemoryCache : HttpRequest → Bool → HttpRequest
  | .mk a b c d e _ g h, m => .mk a b c d e m g h

/-- on_request_served_from_cache: mark the record as served from the
    memory cache. -/
def NetworkManager.on_request_served_from_cache (s : NetworkManager)
    (event : EventRequestServedFromCache) : NetworkManager :=
  match s.requests event.request_id with
  | some request =>
    { s with requests :=
        fun k => if k = event.request_id
                 then some (request.withFromMemoryCache true)
                 else s.requests k }
  | none => s

/-- on_response_received: remove the record, attach the response and emit
    RequestFinished. -/
def NetworkManager.on_response_received (s : NetworkManager)
    (event : EventResponseReceived) : NetworkManager :=
  match s.requests event.request_id with
  | some request =>
    { s with
      requests := fun k => if k = event.request_id then none else s.requests k,
      queued_events := s.queued_events
        ++ [.requestFinished (request.set_response event.response)] }
  | none => s

/-- on_network_loading_finished: remove the record, drop its interception id
    from attempted_authentications and emit RequestFinished. -/
def NetworkManager.on_network_loading_finished (s : NetworkManager)
    (event : EventLoadingFinished) : NetworkManager :=
  match s.requests event.request_id with
  | some request =>
    let s := { s with requests :=
      fun k => if k = event.request_id then none else s.requests k }
    let s :=
      match request.interception_id with
      | some iid =>
        { s with attempted_authentications :=
            fun x => if x = iid then false else s.attempted_authentications x }
      | none => s
    { s with queued_events := s.queued_events ++ [.requestFinished request] }
  | none => s

/-- on_network_loading_failed: same removal, but record the error text and
    emit RequestFailed. -/
def NetworkManager.on_network_loading_failed (s : NetworkManager)
    (event : EventLoadingFailed) : NetworkManager :=
  match s.requests event.request_id with
  | some request =>
    let request := HttpRequest.mk request.request_id request.frame_id
      request.interception_id request.allow_interception request.redirect_chain
      request.from_memory_cache (some event.error_text) request.response
    let s := { s with requests :=
      fun k => if k = event.request_id then none else s.requests k }
    let s :=
      match request.interception_id with
      | some iid =>
        { s with attempted_authentications :=
            fun x => if x = iid then false else s.attempted_authentications x }
      | none => s
    { s with queued_events := s.queued_events ++ [.requestFailed request] }
  | none => s

/-- on_fetch_auth_required: CancelAuth for an already-attempted id,
    ProvideCredentials (marking the id) when credentials are set, Default
    otherwise; the credentials are copied onto the auth challenge response. -/
def NetworkManager.on_fetch_auth_required (s : NetworkManager)
    (event : EventAuthRequired) : NetworkManager :=
  if s.attempted_authentications event.request_id then
    s.push_cdp_request
      (.continueWithAuth event.request_id .cancelAuth
        (s.credentials.map Credentials.username)
        (s.credentials.map Credentials.password))
  else if s.credentials.isSome then
    ({ s with attempted_authentications :=
        fun x => if x = event.request_id then true
                 else s.attempted_authentications x } : NetworkManager).push_cdp_request
      (.continueWithAuth event.request_id .provideCredentials
        (s.credentials.map Credentials.username)
        (s.credentials.map Credentials.password))
  else
    s.push_cdp_request
      (.continueWithAuth event.request_id .default
        (s.credentials.map Credentials.username)
        (s.credentials.map Credentials.password))

/-- set_offline_mode: no-op when the value is unchanged, else store it and
    emit emulateNetworkConditions (latency 0, throughputs -1; the f64
    constants of the source are modelled as integers). -/
def NetworkManager.set_offline_mode (s : NetworkManager) (value : Bool) :
    NetworkManager :=
  if s.offline == value then
    s
  else
    let s := { s with offline := value }
    s.push_cdp_request (.emulateNetworkConditions s.offline 0 (-1) (-1))

/-- The extension test inside skip_xhr: find the last dot, require at least
    two trailing characters, then test the visual-asset set (when media is
    blocked) or css containment (when stylesheets are blocked). -/
def xhrExtensionBlock (block_media block_css : Bool) (request_url : String) : Bool :=
  match rfindDotIdx request_url.data with
  | some position =>
    if request_url.data.length - position ≥ 3 then
      let ext := request_url.data.drop (position + 1)
      if block_media && xhrAssetMember ext then true
      else if block_css then extContainsCss ext
      else false
    else false
  | none => false

/-- skip_xhr (network.rs): the XHR sub-ladder of the skip decision. -/
def NetworkManager.skip_xhr (s : NetworkManager) (skip_networking : Bool)
    (event : EventRequestPaused) : Bool :=
  if !skip_networking && event.resource_type == .xhr then
    let request_url := event.request.url
    let skip_analytics := s.block_analytics && ignore_script_xhr request_url
    if skip_analytics then
      true
    else if s.block_stylesheets || s.ignore_visuals then
      let block_css := s.block_stylesheets
      let block_media := s.ignore_visuals && s.only_html
      let block_request := xhrExtensionBlock block_media block_css request_url
      if !block_request then ignore_script_xhr_media request_url
      else block_request
    else
      skip_networking
  else
    skip_networking

/-- on_fetch_request_paused (the non-adblock build of network.rs). -/
def NetworkManager.on_fetch_request_paused (s : NetworkManager)
    (event : EventRequestPaused) : NetworkManager :=
  if !s.user_request_interception_enabled
      && s.protocol_request_interception_enabled then
    s.push_cdp_request (.continueRequest event.request_id)
  else
    match event.network_id with
    | some network_id =>
      match s.requests_will_be_sent network_id with
      | some request_will_be_sent =>
        ({ s with requests_will_be_sent :=
            fun k => if k = network_id then none else s.requests_will_be_sent k
         } : NetworkManager).on_request request_will_be_sent (some event.request_id)
      | none =>
        let javascript_resource := event.resource_type == .script
        let skip_networking :=
          IGNORE_NETWORKING_RESOURCE_MAP.contains event.resource_type.asRef
          || (s.ignore_visuals
              && IGNORE_VISUAL_RESOURCE_MAP.contains event.resource_type.asRef)
          || (s.block_stylesheets && event.resource_type == .stylesheet)
          || (s.block_javascript && javascript_resource
              && !(JS_FRAMEWORK_ALLOW.contains event.request.url))
        let skip_networking :=
          if !skip_networking && (s.only_html || s.ignore_visuals)
              && (javascript_resource || event.resource_type == .document) then
            ignore_script_embedded event.request.url
          else skip_networking
        let skip_networking :=
          if !skip_networking && javascript_resource && s.block_analytics then
            ignore_script event.request.url
          else skip_networking
        let skip_networking := s.skip_xhr skip_networking event
        if skip_networking then
          s.push_cdp_request (.fulfillRequest event.request_id 200)
        else
          s.push_cdp_request (.continueRequest event.request_id)
    | none =>
      s.push_cdp_request (.continueRequest event.request_id)

/-- The XHR sub-ladder as the spec describes it, corrected to the code: the
    analytics test comes first; the extension tests and the media-trie
    fallback are evaluated only under block_stylesheets or ignore_visuals;
    outside that guard nothing is skipped. -/
def skipXhrLadderSpec (s : NetworkManager) (url : String) : Bool :=
  if s.block_analytics && ignore_script_xhr url then true
  else if s.block_stylesheets || s.ignore_visuals then
    if xhrExtensionBlock (s.ignore_visuals && s.only_html) s.block_stylesheets url then
      true
    else
      ignore_script_xhr_media url
  else false

/-- The two request-lifecycle events of claim C4 (responseReceived and
    loadingFinished), tagged with their request id. -/
inductive FinishEvent where
  | responseReceived (e : EventResponseReceived)
  | loadingFinished (e : EventLoadingFinished)

def FinishEvent.target : FinishEvent → String
  | .responseReceived e => e.request_id
  | .loadingFinished e => e.request_id

/-- Dispatch a FinishEvent to the corresponding handler. -/
def NetworkManager.processFinish (s : NetworkManager) : FinishEvent → NetworkManager
  | .responseReceived e => s.on_response_received e
  | .loadingFinished e => s.on_network_loading_finished e

/-- Process a sequence of FinishEvents in order. -/
def NetworkManager.processFinishSeq (s : NetworkManager)
    (evs : List FinishEvent) : NetworkManager :=
  evs.foldl NetworkManager.processFinish s

/-- Recognizer for RequestFinished events in the queue. -/
def isRequestFinished : NetworkEvent → Bool
  | .requestFinished _ => true
  | _ => false

/-- Recognizer for queued Fetch.continueRequest commands. -/
def isContinueRequestCmd : NetworkEvent → Bool
  | .sendCdpRequest (.continueRequest _) => true
  | _ => false

/-- The externally triggered transitions of the NetworkManager: every
    mutating method modelled above, with arbitrary arguments. -/
inductive NetworkManager.Step : NetworkManager → NetworkManager → Prop where
  | set_extra_headers (s : NetworkManager) (h : List (String × String)) :
      Step s (s.set_extra_headers h)
  | set_request_interception (s : NetworkManager) (b : Bool) :
      Step s (s.set_request_interception b)
  | set_cache_enabled (s : NetworkManager) (b : Bool) :
      Step s (s.set_cache_enabled b)
  | authenticate (s : NetworkManager) (c : Credentials) :
      Step s (s.authenticate c)
  | set_offline_mode (s : NetworkManager) (v : Bool) :
      Step s (s.set_offline_mode v)
  | on_fetch_request_paused (s : NetworkManager) (e : EventRequestPaused) :
      Step s (s.on_fetch_request_paused e)
  | on_fetch_auth_required (s : NetworkManager) (e : EventAuthRequired) :
      Step s (s.on_fetch_auth_required e)
  | on_request_will_be_sent (s : NetworkManager) (e : EventRequestWillBeSent) :
      Step s (s.on_request_will_be_sent e)
  | on_request_served_from_cache (s : NetworkManager) (e : EventRequestServedFromCache) :
      Step s (s.on_request_served_from_cache e)
  | on_response_received (s : NetworkManager) (e : EventResponseReceived) :
      Step s (s.on_response_received e)
  | on_network_loading_finished (s : NetworkManager) (e : EventLoadingFinished) :
      Step s (s.on_network_loading_finished e)
  | on_network_loading_failed (s : NetworkManager) (e : EventLoadingFailed) :
      Step s (s.on_network_loading_failed e)
  | poll (s : NetworkManager) : Step s s.pollState

/-- States reachable from a freshly constructed manager. -/
inductive NetworkManager.Reachable : NetworkManager → Prop where
  | init (ignore_httpserrors : Bool) (request_timeout : Nat) :
      Reachable (NetworkManager.new ignore_httpserrors request_timeout)
  | step {s s' : NetworkManager} :
      Reachable s → NetworkManager.Step s s' → Reachable s'

/-- The selector container of spider_utils (DocumentSelectors), with maps
    modelled as association lists in insertion order. -/
structure DocumentSelectors (K Sel : Type) where
  css : List (K × List Sel)
  xpath : List (K × List String)

/-- The inner loop of build_selectors_base: each selector string is parsed
    as CSS; on failure it is kept as an xpath string when valid, otherwise
    dropped (the source only logs a warning).  The CSS parser and the xpath
    validator are external library functions, taken as parameters. -/
def buildSelectorEntry {Sel : Type} (parseCss : String → Option Sel)
    (validXpath : String → Bool) (selector_set : List String) :
    List Sel × List String :=
  selector_set.foldl
    (fun acc selector_str =>
      match parseCss selector_str with
      | some selector => (acc.1 ++ [selector], acc.2)
      | none =>
        if validXpath selector_str then (acc.1, acc.2 ++ [selector_str])
        else acc)
    ([], [])

/-- The per-key insertion of build_selectors_base: each nonempty routed
    vector is inserted into the corresponding map, following the source's
    four-way branch. -/
def buildSelectorsStep {K Sel : Type} (parseCss : String → Option Sel)
    (validXpath : String → Bool) (acc : DocumentSelectors K Sel)
    (kv : K × List String) : DocumentSelectors K Sel :=
  let selectors_vec := (buildSelectorEntry parseCss validXpath kv.2).1
  let selectors_vec_xpath := (buildSelectorEntry parseCss validXpath kv.2).2
  let has_css_selectors := !selectors_vec.isEmpty
  let has_xpath_selectors := !selectors_vec_xpath.isEmpty
  if has_css_selectors && !has_xpath_selectors then
    { acc with css := acc.css ++ [(kv.1, selectors_vec)] }
  else if !has_css_selectors && has_xpath_selectors then
    { acc with xpath := acc.xpath ++ [(kv.1, selectors_vec_xpath)] }
  else
    let acc2 :=
      if has_css_selectors then
        { acc with css := acc.css ++ [(kv.1, selectors_vec)] }
      else acc
    if has_xpath_selectors then
      { acc2 with xpath := acc2.xpath ++ [(kv.1, selectors_vec_xpath)] }
    else acc2

/-- build_selectors_base of spider_utils: per key the selector strings are
    routed into CSS and xpath vectors, then inserted when nonempty. -/
def build_selectors_base {K Sel : Type} (parseCss : String → Option Sel)
    (validXpath : String → Bool) (selectors : List (K × List String)) :
    DocumentSelectors K Sel :=
  selectors.foldl (buildSelectorsStep parseCss validXpath) ⟨[], []⟩

/-! Concrete states and events used by the counterexamples and witnesses. -/

/-- A freshly constructed manager (note block_analytics defaults to true). -/
def nmFresh : NetworkManager := NetworkManager.new false 0

/-- C1 first counterexample input: every blocking flag of the sub-ladder
    guard is off, the URL matches the XHR media trie. -/
def eventC1a : EventRequestPaused :=
  ⟨"f1", some "n1", .xhr, ⟨"https://www.youtube.com/s/player/abc"⟩⟩

/-- C1 second counterexample state: stylesheets blocked, analytics off. -/
def nmC1b : NetworkManager :=
  { nmFresh with block_stylesheets := true, block_analytics := false }

/-- C1 second counterexample input: the URL does not end in .css but its
    extension contains css. -/
def eventC1b : EventRequestPaused :=
  ⟨"f2", some "n2", .xhr, ⟨"https://x/a.cssx"⟩⟩

/-- C2 counterexample state: user interception on, javascript blocked. -/
def nmC2 : NetworkManager :=
  { nmFresh with user_request_interception_enabled := true,
                 block_javascript := true }

/-- C2 counterexample input: the scenario URL of the spec. -/
def eventC2 : EventRequestPaused :=
  ⟨"i1", some "n1", .script, ⟨"https://cdn/react.production.min.js"⟩⟩

/-- C2 witness input: a URL that is an exact member of JS_FRAMEWORK_ALLOW. -/
def eventC2w : EventRequestPaused :=
  ⟨"i2", some "n2", .script, ⟨"https://js.stripe.com/v3/"⟩⟩

/-- C3 witness credentials. -/
def credC3 : Credentials := ⟨"user", "pass"⟩

/-- C3 witness state: a fresh manager that has been given credentials. -/
def nmC3 : NetworkManager := nmFresh.authenticate credC3

/-- C4 witness record. -/
def reqC4 : HttpRequest := HttpRequest.new "r1" none none false []

/-- C4 witness state: one pending request record. -/
def nmC4 : NetworkManager :=
  { nmFresh with requests := fun k => if k = "r1" then some reqC4 else none }

/-- C5 buffered requestWillBeSent event. -/
def wbsC5 : EventRequestWillBeSent := ⟨"n1", none, ⟨"https://example.com/"⟩, none⟩

/-- C5 state: user interception on and one buffered requestWillBeSent. -/
def nmC5 : NetworkManager :=
  { nmFresh with user_request_interception_enabled := true,
                 requests_will_be_sent := fun k => if k = "n1" then some wbsC5 else none }

/-- C5 paused event whose network id has the buffered event. -/
def eventC5 : EventRequestPaused := ⟨"f1", some "n1", .document, ⟨"https://example.com/"⟩⟩

/-- C6 witness state: protocol interception enabled. -/
def nmC6 : NetworkManager :=
  { nmFresh with protocol_request_interception_enabled := true }

/-- C6 witness input: a data: URL. -/
def wbsC6 : EventRequestWillBeSent := ⟨"r9", none, ⟨"data:text/html,hello"⟩, none⟩

/-- The analytics URL of spec scenario 5. -/
def gaUrl : String := "https://www.google-analytics.com/ga.js"

/-- C7 witness state: user interception on (block_analytics is already true
    by default). -/
def nmC7 : NetworkManager :=
  { nmFresh with user_request_interception_enabled := true }

/-- C7 witness input: a paused Script request for the analytics URL. -/
def eventC7 : EventRequestPaused := ⟨"i7", some "n7", .script, ⟨gaUrl⟩⟩

/-- C10 witness state. -/
def nmC10 : NetworkManager :=
  { nmFresh with user_request_interception_enabled := true, only_html := true,
                 ignore_visuals := true, block_stylesheets := true,
                 block_javascript := true }

/-- C10 witness input: a paused event with no network id. -/
def eventC10 : EventRequestPaused := ⟨"p1", none, .script, ⟨"https://example.com/x.js"⟩⟩

/-! Trie correctness: contains_prefix over the built trie is exactly
    "some nonempty inserted pattern is a character-wise prefix". -/

theorem trieContainsPref_empty (u : List Char) :
    trieContainsPref TrieNode.empty u = false := by
  cases u <;> rfl

theorem trieInsert_is_end (w : List Char) (t : TrieNode) :
    (trieInsert t w).is_end_of_word = (w.isEmpty || t.is_end_of_word) := by
  cases w <;> cases t <;> rfl

theorem trieContainsPref_cons (t : TrieNode) (c : Char) (cs : List Char) :
    trieContainsPref t (c :: cs)
      = (match TrieNode.children t c with
         | some next => TrieNode.is_end_of_word next || trieContainsPref next cs
         | none => false) := by
  cases t; rfl

theorem trieContainsPref_insert (w : List Char) (t : TrieNode) (u : List Char) :
    trieContainsPref (trieInsert t w) u
      = ((!w.isEmpty && List.isPrefixOf w u) || trieContainsPref t u) := by
  induction w generalizing t u with
  | nil =>
    cases t with
    | mk children e =>
      cases u with
      | nil => rfl
      | cons c cs => rfl
  | cons a as ih =>
    cases t with
    | mk children e =>
      cases u with
      | nil => simp [trieContainsPref, List.isPrefixOf]
      | cons c cs =>
        rw [trieContainsPref_cons, trieContainsPref_cons]
        have hacc : TrieNode.children (TrieNode.mk children e) c = children c := rfl
        by_cases hc : c = a
        · subst hc
          cases hch : children c with
          | some t0 =>
            have h1 : TrieNode.children (trieInsert (.mk children e) (c :: as)) c
                = some (trieInsert t0 as) := by
              simp [trieInsert, TrieNode.children, hch]
            rw [h1, hacc, hch]
            simp only [trieInsert_is_end, ih, List.isPrefixOf,
              beq_self_eq_true, Bool.true_and, List.isEmpty_cons,
              Bool.not_false, Bool.true_and]
            cases as with
            | nil => simp [List.isPrefixOf]
            | cons b bs =>
              simp only [List.isEmpty_cons, Bool.not_false, Bool.true_and,
                Bool.false_or]
              cases h1 : List.isPrefixOf (b :: bs) cs <;>
                cases h2 : TrieNode.is_end_of_word t0 <;>
                  cases h3 : trieContainsPref t0 cs <;> simp [h1, h2, h3]
          | none =>
            have h1 : TrieNode.children (trieInsert (.mk children e) (c :: as)) c
                = some (trieInsert TrieNode.empty as) := by
              simp [trieInsert, TrieNode.children, hch]
            rw [h1, hacc, hch]
            simp only [trieInsert_is_end, ih, List.isPrefixOf,
              beq_self_eq_true, Bool.true_and, trieContainsPref_empty,
              Bool.or_false]
            have hemptyend : TrieNode.is_end_of_word TrieNode.empty = false := rfl
            rw [hemptyend]
            cases as with
            | nil => simp [List.isPrefixOf]
            | cons b bs => simp
        · have hac : (a == c) = false := by
            rw [beq_eq_false_iff_ne]
            exact fun h => hc h.symm
          have h1 : TrieNode.children (trieInsert (.mk children e) (a :: as)) c
              = children c := by
            simp [trieInsert, TrieNode.children, hc]
          rw [h1, hacc]
          simp only [List.isPrefixOf, hac, Bool.false_and, Bool.and_false,
            Bool.false_or]

theorem trieContainsPref_foldl (ps : List (List Char)) (t : TrieNode) (u : List Char) :
    trieContainsPref (ps.foldl trieInsert t) u
      = (ps.any (fun p => !p.isEmpty && List.isPrefixOf p u) || trieContainsPref t u) := by
  induction ps generalizing t with
  | nil => simp
  | cons p ps ih =>
    simp only [List.foldl_cons, List.any_cons, ih, trieContainsPref_insert]
    cases h1 : (!p.isEmpty && List.isPrefixOf p u) <;>
      cases h2 : ps.any (fun q => !q.isEmpty && List.isPrefixOf q u) <;> simp

theorem any_map_eq {α β : Type} (f : α → β) (l : List α) (p : β → Bool) :
    (l.map f).any p = l.any (fun x => p (f x)) := by
  induction l with
  | nil => rfl
  | cons x xs ih => simp [List.any_cons, ih]

theorem trieContainsPref_buildTrie (ps : List String) (u : List Char) :
    trieContainsPref (buildTrie ps) u
      = ps.any (fun p => !p.data.isEmpty && List.isPrefixOf p.data u) := by
  unfold buildTrie
  rw [trieContainsPref_foldl, any_map_eq]
  simp [trieContainsPref_empty]

/-- ignore_script in disjunctive form: trie prefix match or one of the four
    suffix checks. -/
theorem ignore_script_eq (u : String) :
    ignore_script u
      = (urlIgnorePatterns.any (fun p => !p.data.isEmpty && List.isPrefixOf p.data u.data)
         || (List.isSuffixOf "analytics.js".data u.data
             || List.isSuffixOf "ads.js".data u.data
             || List.isSuffixOf "tracking.js".data u.data
             || List.isSuffixOf "track.js".data u.data)) := by
  simp only [ignore_script, URL_IGNORE_TRIE, trieContainsPref_buildTrie]
  cases h : urlIgnorePatterns.any
      (fun p => !p.data.isEmpty && List.isPrefixOf p.data u.data) <;> simp [h]

/-! Field preservation lemmas for the handlers, used by the claims about
    pairing and authentication. -/

theorem push_cdp_credentials (s : NetworkManager) (cmd : CdpCommand) :
    (s.push_cdp_request cmd).credentials = s.credentials := rfl

theorem push_cdp_attempted (s : NetworkManager) (cmd : CdpCommand) :
    (s.push_cdp_request cmd).attempted_authentications
      = s.attempted_authentications := rfl

theorem handle_request_redirect_preserves (s : NetworkManager)
    (req : HttpRequest) (resp : Response) :
    (s.handle_request_redirect req resp).1.requests_will_be_sent
        = s.requests_will_be_sent
    ∧ (s.handle_request_redirect req resp).1.request_id_to_interception_id
        = s.request_id_to_interception_id
    ∧ (s.handle_request_redirect req resp).1.credentials = s.credentials
    ∧ (s.handle_request_redirect req resp).1.requests = s.requests
    ∧ (s.handle_request_redirect req resp).1.user_request_interception_enabled
        = s.user_request_interception_enabled
    ∧ (s.handle_request_redirect req resp).1.queued_events = s.queued_events := by
  unfold NetworkManager.handle_request_redirect
  cases h : (req.set_response resp).interception_id <;> simp [h]

theorem handle_request_redirect_attempted_mono (s : NetworkManager)
    (req : HttpRequest) (resp : Response) (x : String) :
    (s.handle_request_redirect req resp).1.attempted_authentications x = true →
      s.attempted_authentications x = true := by
  unfold NetworkManager.handle_request_redirect
  cases h : (req.set_response resp).interception_id with
  | none => simp [h]
  | some iid2 =>
    simp only [h]
    intro hx
    by_cases hxi : x = iid2
    · simp [hxi] at hx
    · simp [hxi] at hx
      exact hx

theorem on_request_preserves (s : NetworkManager) (e : EventRequestWillBeSent)
    (iid : Option String) :
    (s.on_request e iid).requests_will_be_sent = s.requests_will_be_sent
    ∧ (s.on_request e iid).request_id_to_interception_id
        = s.request_id_to_interception_id
    ∧ (s.on_request e iid).credentials = s.credentials := by
  unfold NetworkManager.on_request NetworkManager.on_request_finish
  repeat' split
  all_goals simp [handle_request_redirect_preserves]

theorem on_request_attempted_mono (s : NetworkManager)
    (e : EventRequestWillBeSent) (iid : Option String) (x : String) :
    (s.on_request e iid).attempted_authentications x = true →
      s.attempted_authentications x = true := by
  unfold NetworkManager.on_request NetworkManager.on_request_finish
  repeat' split
  all_goals intro h
  all_goals simp_all
  have h2 := handle_request_redirect_attempted_mono _ _ _ x h
  exact h2

theorem on_fetch_request_paused_cred (s : NetworkManager)
    (e : EventRequestPaused) :
    (s.on_fetch_request_paused e).credentials = s.credentials := by
  unfold NetworkManager.on_fetch_request_paused
  repeat' split
  all_goals first
    | exact (on_request_preserves _ _ _).2.2
    | exact push_cdp_credentials _ _
    | (rw [apply_ite NetworkManager.credentials, push_cdp_credentials,
        push_cdp_credentials, ite_self])

theorem on_fetch_request_paused_attempted_mono (s : NetworkManager)
    (e : EventRequestPaused) (x : String) :
    (s.on_fetch_request_paused e).attempted_authentications x = true →
      s.attempted_authentications x = true := by
  unfold NetworkManager.on_fetch_request_paused
  repeat' split
  all_goals intro h
  all_goals first
    | exact h
    | (have h2 := on_request_attempted_mono _ _ _ x h; exact h2)
    | (rw [apply_ite NetworkManager.attempted_authentications, push_cdp_attempted,
        push_cdp_attempted, ite_self] at h; exact h)

theorem on_request_will_be_sent_cred (s : NetworkManager)
    (e : EventRequestWillBeSent) :
    (s.on_request_will_be_sent e).credentials = s.credentials := by
  unfold NetworkManager.on_request_will_be_sent
  repeat' split
  all_goals simp [(on_request_preserves _ _ _).2.2]

theorem on_request_will_be_sent_attempted_mono (s : NetworkManager)
    (e : EventRequestWillBeSent) (x : String) :
    (s.on_request_will_be_sent e).attempted_authentications x = true →
      s.attempted_authentications x = true := by
  unfold NetworkManager.on_request_will_be_sent
  repeat' split
  all_goals intro h
  all_goals first
    | exact h
    | (have h2 := on_request_attempted_mono _ _ _ x h; exact h2)

theorem on_network_loading_finished_cred (s : NetworkManager)
    (e : EventLoadingFinished) :
    (s.on_network_loading_finished e).credentials = s.credentials := by
  unfold NetworkManager.on_network_loading_finished
  repeat' split
  all_goals rfl

theorem on_network_loading_finished_attempted_mono (s : NetworkManager)
    (e : EventLoadingFinished) (x : String) :
    (s.on_network_loading_finished e).attempted_authentications x = true →
      s.attempted_authentications x = true := by
  unfold NetworkManager.on_network_loading_finished
  cases hq : s.requests e.request_id with
  | none => intro h; exact h
  | some request =>
    cases hiid : request.interception_id with
    | none => simp only [hiid]; intro h; exact h
    | some iid2 =>
      simp only [hiid]
      intro h
      by_cases hxi : x = iid2
      · simp [hxi] at h
      · simp [hxi] at h
        exact h

theorem on_network_loading_failed_cred (s : NetworkManager)
    (e : EventLoadingFailed) :
    (s.on_network_loading_failed e).credentials = s.credentials := by
  unfold NetworkManager.on_network_loading_failed
  cases hq : s.requests e.request_id with
  | none => rfl
  | some request =>
    obtain ⟨rid, fid, iid0, ai, rc, fmc, ft, resp⟩ := request
    cases iid0 <;> rfl

theorem on_network_loading_failed_attempted_mono (s : NetworkManager)
    (e : EventLoadingFailed) (x : String) :
    (s.on_network_loading_failed e).attempted_authentications x = true →
      s.attempted_authentications x = true := by
  unfold NetworkManager.on_network_loading_failed
  cases hq : s.requests e.request_id with
  | none => intro h; exact h
  | some request =>
    obtain ⟨rid, fid, iid0, ai, rc, fmc, ft, resp⟩ := request
    cases iid0 with
    | none => intro h; exact h
    | some iid2 =>
      intro h
      by_cases hxi : x = iid2
      · simp [HttpRequest.interception_id, hxi] at h
      · simp [HttpRequest.interception_id, hxi] at h
        exact h

theorem on_response_received_cred_att (s : NetworkManager)
    (e : EventResponseReceived) :
    (s.on_response_received e).credentials = s.credentials
    ∧ (s.on_response_received e).attempted_authentications
        = s.attempted_authentications := by
  unfold NetworkManager.on_response_received
  repeat' split
  all_goals simp

theorem on_request_served_from_cache_cred_att (s : NetworkManager)
    (e : EventRequestServedFromCache) :
    (s.on_request_served_from_cache e).credentials = s.credentials
    ∧ (s.on_request_served_from_cache e).attempted_authentications
        = s.attempted_authentications := by
  unfold NetworkManager.on_request_served_from_cache
  repeat' split
  all_goals simp

theorem on_fetch_auth_required_cred (s : NetworkManager)
    (e : EventAuthRequired) :
    (s.on_fetch_auth_required e).credentials = s.credentials := by
  unfold NetworkManager.on_fetch_auth_required
  split
  · rfl
  · split <;> rfl

theorem on_fetch_auth_required_attempted_of_none (s : NetworkManager)
    (e : EventAuthRequired) (hc : s.credentials = none) :
    (s.on_fetch_auth_required e).attempted_authentications
      = s.attempted_authentications := by
  unfold NetworkManager.on_fetch_auth_required
  split
  · rfl
  · simp [hc, NetworkManager.push_cdp_request]

theorem update_protocol_request_interception_fields (s : NetworkManager) :
    (s.update_protocol_request_interception).credentials = s.credentials
    ∧ (s.update_protocol_request_interception).attempted_authentications
        = s.attempted_authentications := by
  unfold NetworkManager.update_protocol_request_interception
    NetworkManager.update_protocol_cache_disabled
  simp only [NetworkManager.push_cdp_request]
  constructor <;> (split
                   · rfl
                   · split <;> rfl)

/-- The key reachability invariant behind claim C3: while no credentials are
    configured, no authentication has ever been attempted. -/
theorem reachable_credNone_attempted_empty (s : NetworkManager)
    (h : s.Reachable) :
    s.credentials = none → ∀ x, s.attempted_authentications x = false := by
  induction h with
  | init ih rt => intro _ x; rfl
  | step hr hstep ih =>
    rename_i sp sn
    cases hstep with
    | set_extra_headers h =>
      intro hc x
      exact ih hc x
    | set_request_interception b =>
      intro hc x
      have h2 := (update_protocol_request_interception_fields
        ({ sp with user_request_interception_enabled := b } : NetworkManager)).2
      have h1 := (update_protocol_request_interception_fields
        ({ sp with user_request_interception_enabled := b } : NetworkManager)).1
      unfold NetworkManager.set_request_interception at hc ⊢
      rw [h2]
      refine ih ?_ x
      rw [h1] at hc
      exact hc
    | set_cache_enabled b =>
      intro hc x
      exact ih hc x
    | authenticate c =>
      intro hc x
      have h1 := (update_protocol_request_interception_fields
        ({ sp with credentials := some c } : NetworkManager)).1
      unfold NetworkManager.authenticate at hc
      rw [h1] at hc
      exact absurd hc (by simp)
    | set_offline_mode v =>
      intro hc x
      unfold NetworkManager.set_offline_mode at hc ⊢
      cases hoff : (sp.offline == v)
      · simp only [hoff] at hc ⊢
        simp only [Bool.false_eq_true, if_false] at hc ⊢
        simp only [NetworkManager.push_cdp_request] at hc ⊢
        exact ih hc x
      · simp only [hoff, if_true] at hc ⊢
        exact ih hc x
    | on_fetch_request_paused e =>
      intro hc x
      rw [on_fetch_request_paused_cred] at hc
      cases hval : (sp.on_fetch_request_paused e).attempted_authentications x
      · rfl
      · have h2 := on_fetch_request_paused_attempted_mono sp e x hval
        rw [ih hc x] at h2
        exact h2.symm
    | on_fetch_auth_required e =>
      intro hc x
      rw [on_fetch_auth_required_cred] at hc
      rw [on_fetch_auth_required_attempted_of_none sp e hc]
      exact ih hc x
    | on_request_will_be_sent e =>
      intro hc x
      rw [on_request_will_be_sent_cred] at hc
      cases hval : (sp.on_request_will_be_sent e).attempted_authentications x
      · rfl
      · have h2 := on_request_will_be_sent_attempted_mono sp e x hval
        rw [ih hc x] at h2
        exact h2.symm
    | on_request_served_from_cache e =>
      intro hc x
      rw [(on_request_served_from_cache_cred_att sp e).1] at hc
      rw [(on_request_served_from_cache_cred_att sp e).2]
      exact ih hc x
    | on_response_received e =>
      intro hc x
      rw [(on_response_received_cred_att sp e).1] at hc
      rw [(on_response_received_cred_att sp e).2]
      exact ih hc x
    | on_network_loading_finished e =>
      intro hc x
      rw [on_network_loading_finished_cred] at hc
      cases hval : (sp.on_network_loading_finished e).attempted_authentications x
      · rfl
      · have h2 := on_network_loading_finished_attempted_mono sp e x hval
        rw [ih hc x] at h2
        exact h2.symm
    | on_network_loading_failed e =>
      intro hc x
      rw [on_network_loading_failed_cred] at hc
      cases hval : (sp.on_network_loading_failed e).attempted_authentications x
      · rfl
      · have h2 := on_network_loading_failed_attempted_mono sp e x hval
        rw [ih hc x] at h2
        exact h2.symm
    | poll =>
      intro hc x
      exact ih hc x

/-! Machinery for claim C4: a request record is consumed by the first
    responseReceived or loadingFinished event, which emits the single
    RequestFinished. -/

/-- Count of RequestFinished events in a queue. -/
def countRequestFinished (l : List NetworkEvent) : Nat :=
  l.countP isRequestFinished

theorem countRequestFinished_append (l1 l2 : List NetworkEvent) :
    countRequestFinished (l1 ++ l2)
      = countRequestFinished l1 + countRequestFinished l2 := by
  unfold countRequestFinished
  exact List.countP_append _ _ _

theorem processFinish_hit (s : NetworkManager) (ev : FinishEvent) (r : String)
    (req : HttpRequest) (ht : ev.target = r) (hr : s.requests r = some req) :
    (s.processFinish ev).requests r = none
    ∧ countRequestFinished (s.processFinish ev).queued_events
        = countRequestFinished s.queued_events + 1 := by
  cases ev with
  | responseReceived e =>
    simp only [FinishEvent.target] at ht
    subst ht
    have hred : s.processFinish (.responseReceived e) = s.on_response_received e := rfl
    rw [hred]
    unfold NetworkManager.on_response_received
    rw [hr]
    constructor
    · simp
    · simp [countRequestFinished_append, countRequestFinished,
        isRequestFinished]
  | loadingFinished e =>
    simp only [FinishEvent.target] at ht
    subst ht
    have hred : s.processFinish (.loadingFinished e) = s.on_network_loading_finished e := rfl
    rw [hred]
    unfold NetworkManager.on_network_loading_finished
    rw [hr]
    cases hiid : req.interception_id with
    | none =>
      simp only [hiid]
      constructor
      · simp
      · simp [countRequestFinished_append, countRequestFinished,
          isRequestFinished]
    | some iid2 =>
      simp only [hiid]
      constructor
      · simp
      · simp [countRequestFinished_append, countRequestFinished,
          isRequestFinished]

theorem processFinish_miss (s : NetworkManager) (ev : FinishEvent)
    (hr : s.requests ev.target = none) : s.processFinish ev = s := by
  cases ev with
  | responseReceived e =>
    simp only [FinishEvent.target] at hr
    have hred : s.processFinish (.responseReceived e) = s.on_response_received e := rfl
    rw [hred]
    unfold NetworkManager.on_response_received
    rw [hr]
  | loadingFinished e =>
    simp only [FinishEvent.target] at hr
    have hred : s.processFinish (.loadingFinished e) = s.on_network_loading_finished e := rfl
    rw [hred]
    unfold NetworkManager.on_network_loading_finished
    rw [hr]

theorem processFinishSeq_miss (s : NetworkManager) (evs : List FinishEvent)
    (r : String) (hall : ∀ ev ∈ evs, FinishEvent.target ev = r)
    (hr : s.requests r = none) : s.processFinishSeq evs = s := by
  induction evs with
  | nil => rfl
  | cons ev rest ih =>
    have ht : FinishEvent.target ev = r := hall ev (by simp)
    have h1 : s.processFinish ev = s := by
      apply processFinish_miss
      rw [ht, hr]
    unfold NetworkManager.processFinishSeq at ih ⊢
    rw [List.foldl_cons, h1]
    exact ih (fun e he => hall e (by simp [he]))

/-! Machinery for claim C9: characterization of the selector-routing fold. -/

theorem buildSelectorEntry_foldl {Sel : Type} (parseCss : String → Option Sel)
    (validXpath : String → Bool) (ss : List String)
    (acc : List Sel × List String) :
    ss.foldl
      (fun acc selector_str =>
        match parseCss selector_str with
        | some selector => (acc.1 ++ [selector], acc.2)
        | none =>
          if validXpath selector_str then (acc.1, acc.2 ++ [selector_str])
          else acc)
      acc
    = (acc.1 ++ ss.filterMap parseCss,
       acc.2 ++ ss.filter (fun t => (parseCss t).isNone && validXpath t)) := by
  induction ss generalizing acc with
  | nil => simp
  | cons t ts ih =>
    rw [List.foldl_cons]
    cases hp : parseCss t with
    | some sel =>
      rw [ih]
      simp [List.filterMap_cons, List.filter_cons, hp]
    | none =>
      by_cases hv : validXpath t = true
      · simp only [hp, hv, if_true]
        rw [ih]
        simp [List.filterMap_cons, List.filter_cons, hp, hv]
      · simp only [hp, Bool.not_eq_true] at hv
        simp only [hp, hv, if_false]
        rw [ih]
        simp [List.filterMap_cons, List.filter_cons, hp, hv]

theorem buildSelectorEntry_spec {Sel : Type} (parseCss : String → Option Sel)
    (validXpath : String → Bool) (ss : List String) :
    (buildSelectorEntry parseCss validXpath ss).1 = ss.filterMap parseCss
    ∧ (buildSelectorEntry parseCss validXpath ss).2
        = ss.filter (fun t => (parseCss t).isNone && validXpath t) := by
  unfold buildSelectorEntry
  rw [buildSelectorEntry_foldl]
  simp

theorem buildSelectorsStep_allCss {K Sel : Type}
    (parseCss : String → Option Sel) (validXpath : String → Bool)
    (acc : DocumentSelectors K Sel) (kv : K × List String)
    (hkv : ∀ t ∈ kv.2, (parseCss t).isSome = true) :
    buildSelectorsStep parseCss validXpath acc kv
      = if (kv.2.filterMap parseCss).isEmpty then acc
        else { acc with css := acc.css ++ [(kv.1, kv.2.filterMap parseCss)] } := by
  have hx : (buildSelectorEntry parseCss validXpath kv.2).2 = [] := by
    rw [(buildSelectorEntry_spec parseCss validXpath kv.2).2]
    rw [List.filter_eq_nil_iff]
    intro t ht
    have h1 := hkv t ht
    cases hp : parseCss t with
    | none => rw [hp] at h1; simp at h1
    | some sel => simp [hp]
  have hc : (buildSelectorEntry parseCss validXpath kv.2).1
      = kv.2.filterMap parseCss :=
    (buildSelectorEntry_spec parseCss validXpath kv.2).1
  unfold buildSelectorsStep
  rw [hx, hc]
  by_cases hne : (kv.2.filterMap parseCss).isEmpty = true
  · simp [hne]
  · simp only [Bool.not_eq_true] at hne
    simp [hne]

theorem build_selectors_base_allCss_aux {K Sel : Type}
    (parseCss : String → Option Sel) (validXpath : String → Bool)
    (input : List (K × List String))
    (hall : ∀ kv ∈ input, ∀ t ∈ kv.2, (parseCss t).isSome = true)
    (acc : DocumentSelectors K Sel) :
    (input.foldl (buildSelectorsStep parseCss validXpath) acc).xpath = acc.xpath
    ∧ (input.foldl (buildSelectorsStep parseCss validXpath) acc).css
      = acc.css ++ input.filterMap (fun kv =>
          if (kv.2.filterMap parseCss).isEmpty then none
          else some (kv.1, kv.2.filterMap parseCss)) := by
  induction input generalizing acc with
  | nil => simp
  | cons kv rest ih =>
    have hkv := hall kv (by simp)
    have hrest : ∀ kv2 ∈ rest, ∀ t ∈ kv2.2, (parseCss t).isSome = true :=
      fun kv2 h2 => hall kv2 (by simp [h2])
    rw [List.foldl_cons, buildSelectorsStep_allCss parseCss validXpath acc kv hkv]
    by_cases hne : (kv.2.filterMap parseCss).isEmpty = true
    · rw [if_pos hne]
      constructor
      · exact (ih hrest acc).1
      · rw [(ih hrest acc).2]
        simp [List.filterMap_cons, hne]
    · rw [if_neg hne]
      constructor
      · exact (ih hrest _).1
      · rw [(ih hrest _).2]
        simp only [Bool.not_eq_true] at hne
        simp [List.filterMap_cons, hne]

/-- on_request always inserts a fresh record for the event's request id,
    carrying the given interception id. -/
theorem on_request_lookup_interception (s : NetworkManager)
    (ev : EventRequestWillBeSent) (iid : Option String) :
    Option.map HttpRequest.interception_id
        ((s.on_request ev iid).requests ev.request_id) = some iid := by
  unfold NetworkManager.on_request NetworkManager.on_request_finish
  repeat' split
  all_goals simp [HttpRequest.new, HttpRequest.interception_id]

/-- on_request appends exactly one downstream Request event and no CDP
    command. -/
theorem on_request_queue (s : NetworkManager) (ev : EventRequestWillBeSent)
    (iid : Option String) :
    (s.on_request ev iid).queued_events
      = s.queued_events ++ [NetworkEvent.request ev.request_id] := by
  unfold NetworkManager.on_request NetworkManager.on_request_finish
  repeat' split
  all_goals simp [handle_request_redirect_preserves]

/-! The claim theorems. -/

/-- C1 (amended): for a paused Xhr request not already skipped, skip_xhr
    first tests block_analytics with the XHR ignore trie; the extension
    tests and the media-trie fallback run only when block_stylesheets or
    ignore_visuals is set, and outside that guard nothing is skipped.  The
    css extension test is containment of css in the extension after the
    last dot, not an ends-with test. -/
theorem c1_xhr_subladder_amended (s : NetworkManager) (e : EventRequestPaused)
    (h : e.resource_type = ResourceType.xhr) :
    s.skip_xhr false e = skipXhrLadderSpec s e.request.url := by
  unfold NetworkManager.skip_xhr skipXhrLadderSpec
  rw [h]
  cases ha : (s.block_analytics && ignore_script_xhr e.request.url) <;>
    cases hg : (s.block_stylesheets || s.ignore_visuals) <;>
      cases hx : xhrExtensionBlock (s.ignore_visuals && s.only_html)
          s.block_stylesheets e.request.url <;>
        simp [ha, hg, hx]

/-- C1 witness: the amended sub-ladder equation at a concrete Xhr event. -/
theorem c1_xhr_subladder_amended_witness :
    eventC1a.resource_type = ResourceType.xhr
    ∧ nmFresh.skip_xhr false eventC1a
        = skipXhrLadderSpec nmFresh eventC1a.request.url :=
  ⟨rfl, c1_xhr_subladder_amended nmFresh eventC1a rfl⟩

/-- C1 counterexample: with every guard flag off, a URL matched by the XHR
    media trie is not skipped although the claim's ladder would skip it; and
    with block_stylesheets on, a URL whose extension merely contains css is
    skipped although it does not end in .css and matches no trie. -/
theorem c1_xhr_subladder_counterexample :
    (nmFresh.skip_xhr false eventC1a = false
      ∧ ignore_script_xhr_media eventC1a.request.url = true
      ∧ nmFresh.block_stylesheets = false
      ∧ nmFresh.ignore_visuals = false
      ∧ ignore_script_xhr eventC1a.request.url = false)
    ∧ (nmC1b.skip_xhr false eventC1b = true
      ∧ List.isSuffixOf ".css".data eventC1b.request.url.data = false
      ∧ nmC1b.ignore_visuals = false
      ∧ nmC1b.block_analytics = false
      ∧ ignore_script_xhr_media eventC1b.request.url = false) :=
  ⟨⟨by decide, by decide, rfl, rfl, by decide⟩,
   ⟨by decide, by decide, rfl, rfl, by decide⟩⟩

/-- C5 (amended): a paused request whose network id has a buffered
    requestWillBeSent removes the buffered event and records the
    interception id on the fresh record via on_request, but the handler
    emits only a downstream Request event, not a Fetch.continueRequest
    command. -/
theorem c5_paused_buffered_amended (s : NetworkManager)
    (e : EventRequestPaused) (nid : String) (wbs : EventRequestWillBeSent)
    (hgate : (!s.user_request_interception_enabled
        && s.protocol_request_interception_enabled) = false)
    (hn : e.network_id = some nid)
    (hb : s.requests_will_be_sent nid = some wbs) :
    (s.on_fetch_request_paused e).requests_will_be_sent nid = none
    ∧ (∃ req, (s.on_fetch_request_paused e).requests wbs.request_id = some req
        ∧ req.interception_id = some e.request_id)
    ∧ (s.on_fetch_request_paused e).queued_events
        = s.queued_events ++ [NetworkEvent.request wbs.request_id] := by
  have hred : s.on_fetch_request_paused e
      = ({ s with requests_will_be_sent :=
          fun k => if k = nid then none else s.requests_will_be_sent k
         } : NetworkManager).on_request wbs (some e.request_id) := by
    unfold NetworkManager.on_fetch_request_paused
    rw [hgate, hn]
    simp only [Bool.false_eq_true, if_false]
    rw [hb]
  rw [hred]
  refine ⟨?_, ?_, ?_⟩
  · rw [(on_request_preserves _ _ _).1]
    simp
  · have hm := on_request_lookup_interception
      ({ s with requests_will_be_sent :=
          fun k => if k = nid then none else s.requests_will_be_sent k
        } : NetworkManager) wbs (some e.request_id)
    cases hlook : (({ s with requests_will_be_sent :=
        fun k => if k = nid then none else s.requests_will_be_sent k
      } : NetworkManager).on_request wbs (some e.request_id)).requests
        wbs.request_id with
    | none => rw [hlook] at hm; simp at hm
    | some req =>
      rw [hlook] at hm
      simp at hm
      exact ⟨req, rfl, hm⟩
  · rw [on_request_queue]

/-- C5 witness: the amended behaviour at a concrete buffered pairing. -/
theorem c5_paused_buffered_amended_witness :
    ((!nmC5.user_request_interception_enabled
        && nmC5.protocol_request_interception_enabled) = false)
    ∧ eventC5.network_id = some "n1"
    ∧ nmC5.requests_will_be_sent "n1" = some wbsC5
    ∧ ((nmC5.on_fetch_request_paused eventC5).requests_will_be_sent "n1" = none
      ∧ (∃ req, (nmC5.on_fetch_request_paused eventC5).requests wbsC5.request_id
            = some req ∧ req.interception_id = some eventC5.request_id)
      ∧ (nmC5.on_fetch_request_paused eventC5).queued_events
          = nmC5.queued_events ++ [NetworkEvent.request wbsC5.request_id]) :=
  ⟨rfl, rfl, rfl, c5_paused_buffered_amended nmC5 eventC5 "n1" wbsC5 rfl rfl rfl⟩

/-- C5 counterexample: at the buffered pairing the queue receives a single
    downstream Request event and no Fetch.continueRequest command, contrary
    to the claim that a continueRequest command is emitted. -/
theorem c5_paused_buffered_counterexample :
    (nmC5.on_fetch_request_paused eventC5).queued_events
        = [NetworkEvent.request "n1"]
    ∧ (nmC5.on_fetch_request_paused eventC5).queued_events.countP
        isContinueRequestCmd = 0
    ∧ nmC5.requests_will_be_sent "n1" = some wbsC5 :=
  ⟨rfl, rfl, rfl⟩

/-- C6: a requestWillBeSent event whose URL starts with data: goes straight
    to on_request with no interception id, leaving both pairing maps (the
    will-be-sent buffer and the pre-assigned interception ids) untouched,
    whatever the protocol interception flag is. -/
theorem c6_data_url_no_pairing (s : NetworkManager)
    (e : EventRequestWillBeSent)
    (h : strStartsWith e.request.url "data:" = true) :
    s.on_request_will_be_sent e = s.on_request e none
    ∧ (s.on_request_will_be_sent e).requests_will_be_sent
        = s.requests_will_be_sent
    ∧ (s.on_request_will_be_sent e).request_id_to_interception_id
        = s.request_id_to_interception_id := by
  have h1 : s.on_request_will_be_sent e = s.on_request e none := by
    unfold NetworkManager.on_request_will_be_sent
    simp [h]
  refine ⟨h1, ?_, ?_⟩
  · rw [h1]
    exact (on_request_preserves _ _ _).1
  · rw [h1]
    exact (on_request_preserves _ _ _).2.1

/-- C6 witness: the data: URL behaviour at a concrete event with protocol
    interception enabled. -/
theorem c6_data_url_no_pairing_witness :
    strStartsWith wbsC6.request.url "data:" = true
    ∧ nmC6.protocol_request_interception_enabled = true
    ∧ (nmC6.on_request_will_be_sent wbsC6 = nmC6.on_request wbsC6 none
      ∧ (nmC6.on_request_will_be_sent wbsC6).requests_will_be_sent
          = nmC6.requests_will_be_sent
      ∧ (nmC6.on_request_will_be_sent wbsC6).request_id_to_interception_id
          = nmC6.request_id_to_interception_id) :=
  ⟨by decide, rfl, c6_data_url_no_pairing nmC6 wbsC6 (by decide)⟩

/-- C8: set_offline_mode is a no-op (no state change, no command) when the
    stored flag already equals the argument; otherwise it stores the flag
    and appends exactly one emulateNetworkConditions command with latency 0
    and throughputs -1; hence calling it twice equals calling it once. -/
theorem c8_set_offline_mode (s : NetworkManager) (v : Bool) :
    (s.offline = v → s.set_offline_mode v = s)
    ∧ (s.offline ≠ v → s.set_offline_mode v
        = ({ s with
              offline := v,
              queued_events := s.queued_events
                ++ [NetworkEvent.sendCdpRequest
                      (.emulateNetworkConditions v 0 (-1) (-1))] } : NetworkManager))
    ∧ (s.set_offline_mode v).set_offline_mode v = s.set_offline_mode v := by
  have hsame : ∀ (t : NetworkManager), t.offline = v →
      t.set_offline_mode v = t := by
    intro t h
    unfold NetworkManager.set_offline_mode
    simp [h]
  have hdiff : s.offline ≠ v → s.set_offline_mode v
      = ({ s with
            offline := v,
            queued_events := s.queued_events
              ++ [NetworkEvent.sendCdpRequest
                    (.emulateNetworkConditions v 0 (-1) (-1))] } : NetworkManager) := by
    intro h
    unfold NetworkManager.set_offline_mode
    have hb : (s.offline == v) = false := by
      cases hsv : s.offline <;> cases hv2 : v <;> simp_all
    rw [hb]
    simp [NetworkManager.push_cdp_request]
  refine ⟨hsame s, hdiff, ?_⟩
  by_cases h : s.offline = v
  · rw [hsame s h, hsame s h]
  · rw [hdiff h]
    apply hsame
    rfl

/-- C8 witness: both branches of set_offline_mode at a concrete state. -/
theorem c8_set_offline_mode_witness :
    nmFresh.offline = false
    ∧ nmFresh.set_offline_mode false = nmFresh
    ∧ (nmFresh.set_offline_mode true).set_offline_mode true
        = nmFresh.set_offline_mode true := by
  refine ⟨rfl, (c8_set_offline_mode nmFresh false).1 rfl, ?_⟩
  obtain ⟨-, -, h3⟩ := c8_set_offline_mode nmFresh true
  exact h3

/-- C10: a paused event with no network id is always answered with exactly
    one Fetch.continueRequest when user interception is enabled; the skip
    ladder is bypassed, so no blocking flag can fulfill it with an empty
    200. -/
theorem c10_no_network_id (s : NetworkManager) (e : EventRequestPaused)
    (hu : s.user_request_interception_enabled = true)
    (hn : e.network_id = none) :
    s.on_fetch_request_paused e
      = s.push_cdp_request (.continueRequest e.request_id)
    ∧ (s.on_fetch_request_paused e).queued_events
      = s.queued_events
        ++ [NetworkEvent.sendCdpRequest (.continueRequest e.request_id)] := by
  have h1 : s.on_fetch_request_paused e
      = s.push_cdp_request (.continueRequest e.request_id) := by
    unfold NetworkManager.on_fetch_request_paused
    simp [hu, hn]
  exact ⟨h1, by rw [h1]; rfl⟩

/-- skip_xhr leaves the skip flag unchanged for non-XHR resources. -/
theorem skip_xhr_not_xhr (s : NetworkManager) (sk : Bool)
    (e : EventRequestPaused)
    (h : (e.resource_type == ResourceType.xhr) = false) :
    s.skip_xhr sk e = sk := by
  unfold NetworkManager.skip_xhr
  simp [h]

/-- C2 (amended): a paused Script request whose full URL is an exact member
    of JS_FRAMEWORK_ALLOW bypasses ladder step 4 and, when no other ladder
    step matches, is continued; membership is exact string equality on the
    whole URL, not a basename match. -/
theorem c2_js_allow_amended (s : NetworkManager) (e : EventRequestPaused)
    (nid : String)
    (hu : s.user_request_interception_enabled = true)
    (hn : e.network_id = some nid)
    (hb : s.requests_will_be_sent nid = none)
    (hrt : e.resource_type = ResourceType.script)
    (hallow : JS_FRAMEWORK_ALLOW.contains e.request.url = true)
    (hemb : ((s.only_html || s.ignore_visuals)
        && ignore_script_embedded e.request.url) = false)
    (hana : (s.block_analytics && ignore_script e.request.url) = false) :
    s.on_fetch_request_paused e
      = s.push_cdp_request (.continueRequest e.request_id) := by
  have hxhr : ∀ sk, s.skip_xhr sk e = sk := fun sk =>
    skip_xhr_not_xhr s sk e (by rw [hrt]; decide)
  have h1 : IGNORE_NETWORKING_RESOURCE_MAP.contains
      (ResourceType.script.asRef) = false := by decide
  have h2 : IGNORE_VISUAL_RESOURCE_MAP.contains
      (ResourceType.script.asRef) = false := by decide
  have h3 : (ResourceType.script == ResourceType.stylesheet) = false := by decide
  have h4 : (ResourceType.script == ResourceType.script) = true := by decide
  unfold NetworkManager.on_fetch_request_paused
  rw [hu, hn]
  simp only [Bool.not_true, Bool.false_and, Bool.false_eq_true, if_false]
  rw [hb]
  simp only [hrt, h1, h2, h3, h4, hallow, Bool.and_false, Bool.false_or,
    Bool.or_false, Bool.and_true, Bool.true_and, Bool.not_true, Bool.false_and,
    Bool.not_false]
  cases hov : (s.only_html || s.ignore_visuals) with
  | false =>
    simp only [hov, Bool.false_and, Bool.and_false, Bool.false_eq_true,
      if_false, Bool.true_and, Bool.not_false]
    cases hba : s.block_analytics with
    | false =>
      simp only [hba, Bool.and_false, Bool.false_eq_true, if_false]
      rw [hxhr]
      simp
    | true =>
      rw [hba] at hana
      simp only [Bool.true_and] at hana
      simp only [hba, hana, Bool.and_true, if_true]
      rw [hxhr]
      simp
  | true =>
    rw [hov] at hemb
    simp only [Bool.true_and] at hemb
    simp only [hov, hemb, Bool.true_and, Bool.and_true, if_true,
      Bool.not_false]
    cases hba : s.block_analytics with
    | false =>
      simp only [hba, Bool.and_false, Bool.false_eq_true, if_false]
      rw [hxhr]
      simp
    | true =>
      rw [hba] at hana
      simp only [Bool.true_and] at hana
      simp only [hba, hana, Bool.and_true, if_true]
      rw [hxhr]
      simp

/-- C2 witness: the amended behaviour at a concrete allowed URL. -/
theorem c2_js_allow_amended_witness :
    nmC2.user_request_interception_enabled = true
    ∧ eventC2w.network_id = some "n2"
    ∧ nmC2.requests_will_be_sent "n2" = none
    ∧ eventC2w.resource_type = ResourceType.script
    ∧ JS_FRAMEWORK_ALLOW.contains eventC2w.request.url = true
    ∧ nmC2.block_javascript = true
    ∧ nmC2.on_fetch_request_paused eventC2w
        = nmC2.push_cdp_request (.continueRequest eventC2w.request_id) :=
  ⟨rfl, rfl, rfl, rfl, by decide, rfl,
    c2_js_allow_amended nmC2 eventC2w "n2" rfl rfl rfl rfl (by decide)
      (by decide) (by decide)⟩

/-- C2 counterexample: the spec scenario URL is not an exact member of
    JS_FRAMEWORK_ALLOW, so with block_javascript on the paused request is
    fulfilled with an empty 200 instead of being continued. -/
theorem c2_js_allow_counterexample :
    (nmC2.on_fetch_request_paused eventC2).queued_events
        = [NetworkEvent.sendCdpRequest (.fulfillRequest "i1" 200)]
    ∧ JS_FRAMEWORK_ALLOW.contains eventC2.request.url = false
    ∧ JS_FRAMEWORK_ALLOW.contains "react.production.min.js" = true
    ∧ nmC2.block_javascript = true
    ∧ nmC2.user_request_interception_enabled = true :=
  ⟨rfl, by decide, by decide, rfl, rfl⟩

/-- C3: per interception id at most one ProvideCredentials: an attempted id
    is always answered CancelAuth; with credentials set, a first
    authRequired provides credentials and marks the id, and the immediately
    following authRequired for the same id cancels; with no credentials
    configured (in any reachable state) the response is Default. -/
theorem c3_auth_once (s : NetworkManager) (hreach : s.Reachable) (i : String) :
    (s.attempted_authentications i = true →
      (s.on_fetch_auth_required ⟨i⟩).queued_events
        = s.queued_events
          ++ [NetworkEvent.sendCdpRequest (.continueWithAuth i .cancelAuth
                (s.credentials.map Credentials.username)
                (s.credentials.map Credentials.password))])
    ∧ (s.credentials.isSome = true → s.attempted_authentications i = false →
        (s.on_fetch_auth_required ⟨i⟩).queued_events
          = s.queued_events
            ++ [NetworkEvent.sendCdpRequest (.continueWithAuth i
                  .provideCredentials
                  (s.credentials.map Credentials.username)
                  (s.credentials.map Credentials.password))]
        ∧ (s.on_fetch_auth_required ⟨i⟩).attempted_authentications i = true
        ∧ ((s.on_fetch_auth_required ⟨i⟩).on_fetch_auth_required ⟨i⟩).queued_events
            = (s.on_fetch_auth_required ⟨i⟩).queued_events
              ++ [NetworkEvent.sendCdpRequest (.continueWithAuth i .cancelAuth
                    (s.credentials.map Credentials.username)
                    (s.credentials.map Credentials.password))])
    ∧ (s.credentials = none →
        (s.on_fetch_auth_required ⟨i⟩).queued_events
          = s.queued_events
            ++ [NetworkEvent.sendCdpRequest
                  (.continueWithAuth i .default none none)]) := by
  refine ⟨?_, ?_, ?_⟩
  · intro h
    unfold NetworkManager.on_fetch_auth_required
    simp [h, NetworkManager.push_cdp_request]
  · intro hc ha
    have hfirst : s.on_fetch_auth_required ⟨i⟩
        = ({ s with attempted_authentications :=
              fun x => if x = i then true
                       else s.attempted_authentications x
            } : NetworkManager).push_cdp_request
            (.continueWithAuth i .provideCredentials
              (s.credentials.map Credentials.username)
              (s.credentials.map Credentials.password)) := by
      unfold NetworkManager.on_fetch_auth_required
      simp [ha, hc]
    refine ⟨?_, ?_, ?_⟩
    · rw [hfirst]
      rfl
    · rw [hfirst]
      simp [NetworkManager.push_cdp_request]
    · rw [hfirst]
      unfold NetworkManager.on_fetch_auth_required
      simp [NetworkManager.push_cdp_request]
  · intro hc
    have hatt := reachable_credNone_attempted_empty s hreach hc i
    unfold NetworkManager.on_fetch_auth_required
    simp [hatt, hc, NetworkManager.push_cdp_request]

/-- C3 witness: a reachable state with credentials and a fresh id: the
    first authRequired marks the id attempted. -/
theorem c3_auth_once_witness :
    nmC3.Reachable
    ∧ nmC3.credentials.isSome = true
    ∧ nmC3.attempted_authentications "i1" = false
    ∧ (nmC3.on_fetch_auth_required ⟨"i1"⟩).attempted_authentications "i1" = true := by
  have hreach : nmC3.Reachable :=
    NetworkManager.Reachable.step
      (NetworkManager.Reachable.init false 0)
      (NetworkManager.Step.authenticate nmFresh credC3)
  refine ⟨hreach, rfl, rfl, ?_⟩
  exact ((c3_auth_once nmC3 hreach "i1").2.1 rfl rfl).2.1

/-- C4: once a record for a request id is present, any nonempty run of
    responseReceived and loadingFinished events for that id removes the
    record and emits exactly one RequestFinished downstream. -/
theorem c4_loading_finished_once (s : NetworkManager) (r : String)
    (req : HttpRequest) (evs : List FinishEvent)
    (hne : evs ≠ [])
    (hall : ∀ ev ∈ evs, FinishEvent.target ev = r)
    (hr : s.requests r = some req) :
    (s.processFinishSeq evs).requests r = none
    ∧ countRequestFinished (s.processFinishSeq evs).queued_events
        = countRequestFinished s.queued_events + 1 := by
  cases evs with
  | nil => exact absurd rfl hne
  | cons ev rest =>
    have ht := hall ev (by simp)
    obtain ⟨h1, h2⟩ := processFinish_hit s ev r req ht hr
    have hseq : (s.processFinish ev).processFinishSeq rest = s.processFinish ev :=
      processFinishSeq_miss _ rest r (fun e2 he2 => hall e2 (by simp [he2])) h1
    unfold NetworkManager.processFinishSeq at hseq ⊢
    rw [List.foldl_cons, hseq]
    exact ⟨h1, h2⟩

/-- C4 witness: a single loadingFinished event consumes the record and
    emits one RequestFinished. -/
theorem c4_loading_finished_once_witness :
    ([FinishEvent.loadingFinished ⟨"r1"⟩] ≠ [])
    ∧ (∀ ev ∈ [FinishEvent.loadingFinished (⟨"r1"⟩ : EventLoadingFinished)],
        FinishEvent.target ev = "r1")
    ∧ nmC4.requests "r1" = some reqC4
    ∧ ((nmC4.processFinishSeq [FinishEvent.loadingFinished ⟨"r1"⟩]).requests "r1"
          = none
      ∧ countRequestFinished
          (nmC4.processFinishSeq
            [FinishEvent.loadingFinished ⟨"r1"⟩]).queued_events
          = countRequestFinished nmC4.queued_events + 1) := by
  have hall : ∀ ev ∈ [FinishEvent.loadingFinished (⟨"r1"⟩ : EventLoadingFinished)],
      FinishEvent.target ev = "r1" := by
    intro ev hev
    simp at hev
    subst hev
    rfl
  exact ⟨by simp, hall, rfl,
    c4_loading_finished_once nmC4 "r1" reqC4 _ (by simp) hall rfl⟩

/-- C7: ignore_script holds exactly when a pattern of the tracker table is
    a character-wise prefix of the URL or the URL ends with one of the four
    suffixes; it matches the google-analytics URL, and a paused Script
    request for that URL with block_analytics on is fulfilled with an
    empty 200. -/
theorem c7_ignore_script (s : NetworkManager) (e : EventRequestPaused)
    (nid : String)
    (hu : s.user_request_interception_enabled = true)
    (hn : e.network_id = some nid)
    (hb : s.requests_will_be_sent nid = none)
    (hrt : e.resource_type = ResourceType.script)
    (hba : s.block_analytics = true)
    (hurl : e.request.url = gaUrl) :
    (∀ u : String, ignore_script u = true ↔
      ((∃ p ∈ urlIgnorePatterns, List.isPrefixOf p.data u.data = true)
        ∨ List.isSuffixOf "analytics.js".data u.data = true
        ∨ List.isSuffixOf "ads.js".data u.data = true
        ∨ List.isSuffixOf "tracking.js".data u.data = true
        ∨ List.isSuffixOf "track.js".data u.data = true))
    ∧ ignore_script gaUrl = true
    ∧ s.on_fetch_request_paused e
        = s.push_cdp_request (.fulfillRequest e.request_id 200) := by
  refine ⟨?_, by decide, ?_⟩
  · intro u
    rw [ignore_script_eq]
    have hnonempty : ∀ p ∈ urlIgnorePatterns, (!p.data.isEmpty) = true := by
      decide
    simp only [Bool.or_eq_true, List.any_eq_true, Bool.and_eq_true]
    constructor
    · rintro (⟨p, hp, _, hpre⟩ | h)
      · exact Or.inl ⟨p, hp, hpre⟩
      · right
        tauto
    · rintro (⟨p, hp, hpre⟩ | h)
      · exact Or.inl ⟨p, hp, hnonempty p hp, hpre⟩
      · right
        tauto
  · have hxhr : ∀ sk, s.skip_xhr sk e = sk := fun sk =>
      skip_xhr_not_xhr s sk e (by rw [hrt]; decide)
    have h1 : IGNORE_NETWORKING_RESOURCE_MAP.contains
        (ResourceType.script.asRef) = false := by decide
    have h2 : IGNORE_VISUAL_RESOURCE_MAP.contains
        (ResourceType.script.asRef) = false := by decide
    have h3 : (ResourceType.script == ResourceType.stylesheet) = false := by
      decide
    have h4 : (ResourceType.script == ResourceType.script) = true := by decide
    have hallow : JS_FRAMEWORK_ALLOW.contains gaUrl = false := by decide
    have hemb : ignore_script_embedded gaUrl = false := by decide
    have higs : ignore_script gaUrl = true := by decide
    unfold NetworkManager.on_fetch_request_paused
    rw [hu, hn]
    simp only [Bool.not_true, Bool.false_and, Bool.false_eq_true, if_false]
    rw [hb]
    simp only [hrt, hurl, h1, h2, h3, h4, hallow, hba, hemb, higs,
      Bool.and_false, Bool.false_or, Bool.or_false, Bool.and_true,
      Bool.true_and, Bool.not_true, Bool.not_false]
    cases hbj : s.block_javascript with
    | true =>
      simp only [hbj, Bool.true_and, Bool.not_true, Bool.false_and,
        Bool.false_eq_true, if_false, if_true]
      rw [hxhr]
      simp
    | false =>
      simp only [hbj, Bool.false_and, Bool.false_eq_true, if_false,
        Bool.not_false, Bool.true_and]
      cases hov : (s.only_html || s.ignore_visuals) with
      | false =>
        simp only [hov, Bool.false_and, Bool.and_false, Bool.false_eq_true,
          if_false, Bool.not_false, Bool.true_and, if_true]
        rw [hxhr]
        simp
      | true =>
        simp only [hov, Bool.true_and, hemb, if_true, Bool.not_false,
          if_false, Bool.false_eq_true]
        rw [hxhr]
        simp

/-- C7 witness: the concrete analytics scenario is fulfilled with an
    empty 200. -/
theorem c7_ignore_script_witness :
    nmC7.user_request_interception_enabled = true
    ∧ eventC7.network_id = some "n7"
    ∧ nmC7.requests_will_be_sent "n7" = none
    ∧ eventC7.resource_type = ResourceType.script
    ∧ nmC7.block_analytics = true
    ∧ eventC7.request.url = gaUrl
    ∧ nmC7.on_fetch_request_paused eventC7
        = nmC7.push_cdp_request (.fulfillRequest eventC7.request_id 200) :=
  ⟨rfl, rfl, rfl, rfl, rfl, rfl,
    (c7_ignore_script nmC7 eventC7 "n7" rfl rfl rfl rfl rfl rfl).2.2⟩

/-- C9: build_selectors_base routes every string parsed as CSS into the css
    vector, every CSS failure that is a valid xpath into the xpath vector,
    and drops the rest; when every input string parses as CSS the result's
    css map holds exactly the parsed selectors and the xpath map is empty. -/
theorem c9_build_selectors {K Sel : Type} (parseCss : String → Option Sel)
    (validXpath : String → Bool) (input : List (K × List String))
    (hall : ∀ kv ∈ input, ∀ t ∈ kv.2, (parseCss t).isSome = true) :
    (∀ ss : List String,
      (buildSelectorEntry parseCss validXpath ss).1 = ss.filterMap parseCss
      ∧ (buildSelectorEntry parseCss validXpath ss).2
          = ss.filter (fun t => (parseCss t).isNone && validXpath t))
    ∧ (build_selectors_base parseCss validXpath input).xpath = []
    ∧ (build_selectors_base parseCss validXpath input).css
        = input.filterMap (fun kv =>
            if (kv.2.filterMap parseCss).isEmpty then none
            else some (kv.1, kv.2.filterMap parseCss)) := by
  refine ⟨fun ss => buildSelectorEntry_spec parseCss validXpath ss, ?_, ?_⟩
  · have h := (build_selectors_base_allCss_aux parseCss validXpath input hall
      ⟨[], []⟩).1
    unfold build_selectors_base
    simpa using h
  · have h := (build_selectors_base_allCss_aux parseCss validXpath input hall
      ⟨[], []⟩).2
    unfold build_selectors_base
    simpa using h

/-- C9 witness: an input of two CSS-parsable selectors lands wholly in the
    css component and the xpath component is empty. -/
theorem c9_build_selectors_witness :
    (∀ kv ∈ [("list", [".list", ".sub-list"])],
      ∀ t ∈ kv.2, ((fun (q : String) => some q) t).isSome = true)
    ∧ (build_selectors_base (fun (q : String) => some q) (fun _ => false)
        [("list", [".list", ".sub-list"])]).xpath = []
    ∧ (build_selectors_base (fun (q : String) => some q) (fun _ => false)
        [("list", [".list", ".sub-list"])]).css
        = [("list", [".list", ".sub-list"])] := by
  have hall : ∀ kv ∈ [("list", [".list", ".sub-list"])],
      ∀ t ∈ kv.2, ((fun (q : String) => some q) t).isSome = true := by
    intro kv hkv t ht
    rfl
  have h := c9_build_selectors (fun (q : String) => some q) (fun _ => false)
    [("list", [".list", ".sub-list"])] hall
  refine ⟨hall, h.2.1, ?_⟩
  rw [h.2.2]
  rfl

/-- C10 witness: a concrete paused event with no network id, every blocking
    flag set, is continued. -/
theorem c10_no_network_id_witness :
    nmC10.user_request_interception_enabled = true
    ∧ eventC10.network_id = none
    ∧ nmC10.ignore_visuals = true ∧ nmC10.block_stylesheets = true
    ∧ nmC10.block_javascript = true ∧ nmC10.only_html = true
    ∧ (nmC10.on_fetch_request_paused eventC10).queued_events
        = [NetworkEvent.sendCdpRequest (.continueRequest "p1")] :=
  ⟨rfl, rfl, rfl, rfl, rfl, rfl,
    by rw [(c10_no_network_id nmC10 eventC10 rfl rfl).2]; rfl⟩

end Spider
